import Mathlib

set_option maxHeartbeats 1000000

namespace Wilhelm

/-!
Shallow embedding of the camera/projection, instancing, glyph-atlas and
stroke-tessellation subsystems of the wilhelm_renderer repository.

Machine floating-point (`f32`/`f64`) arithmetic is modelled as exact
arithmetic in a linear ordered field: the generic camera definitions are
instantiated at `ℚ` for executable witnesses and at `ℝ` where the source
uses transcendental functions (`exp`, `sqrt`).
-/

/-- 2D vector, from `core/engine/opengl.rs` (`pub struct Vec2 { x: f32, y: f32 }`). -/
@[ext]
structure Vec2 (α : Type) where
  x : α
  y : α
deriving DecidableEq

/-- `Camera2D` state, from `core/camera.rs`: world coords at screen center,
pixels-per-world-unit scale, and screen dimensions in pixels. -/
@[ext]
structure Camera2D (α : Type) where
  center : Vec2 α
  scale : α
  screen_size : Vec2 α
deriving DecidableEq

variable {α : Type} [LinearOrderedField α]

/-- `Camera2D::world_to_screen` (`core/camera.rs`, `impl Projection for Camera2D`):
`(world - center) * scale + screen_size * 0.5`, componentwise. -/
def Camera2D.world_to_screen (c : Camera2D α) (world : Vec2 α) : Vec2 α :=
  ⟨(world.x - c.center.x) * c.scale + c.screen_size.x * (1 / 2),
   (world.y - c.center.y) * c.scale + c.screen_size.y * (1 / 2)⟩

/-- `Camera2D::screen_to_world` (`core/camera.rs`):
`(screen - screen_size * 0.5) / scale + center`, componentwise. -/
def Camera2D.screen_to_world (c : Camera2D α) (screen : Vec2 α) : Vec2 α :=
  ⟨(screen.x - c.screen_size.x * (1 / 2)) / c.scale + c.center.x,
   (screen.y - c.screen_size.y * (1 / 2)) / c.scale + c.center.y⟩

/-- `Camera2D::zoom_at` (`core/camera.rs`): capture the world point under the
cursor, multiply the scale by `factor`, then shift the center by the apparent
world-space displacement of the cursor so the point stays fixed. -/
def Camera2D.zoom_at (c : Camera2D α) (factor : α) (screen_point : Vec2 α) : Camera2D α :=
  let world_before := c.screen_to_world screen_point
  let c1 : Camera2D α := { c with scale := c.scale * factor }
  let world_after := c1.screen_to_world screen_point
  { c1 with
    center := ⟨c1.center.x + (world_before.x - world_after.x),
               c1.center.y + (world_before.y - world_after.y)⟩ }

/-- `CameraController` state, from `core/camera.rs`. -/
@[ext]
structure CameraController (α : Type) where
  camera : Camera2D α
  target_scale : α
  target_center : Vec2 α
  is_dragging : Bool
  last_cursor_pos : Vec2 α
  zoom_sensitivity : α
  zoom_smoothness : α
deriving DecidableEq

/-- `CameraController::world_at_screen` (`core/camera.rs`): world coordinates at a
screen position computed from the *target* scale and center. -/
def CameraController.world_at_screen (c : CameraController α) (screen : Vec2 α) : Vec2 α :=
  ⟨(screen.x - c.camera.screen_size.x * (1 / 2)) / c.target_scale + c.target_center.x,
   (screen.y - c.camera.screen_size.y * (1 / 2)) / c.target_scale + c.target_center.y⟩

/-- `CameraController::on_scroll` (`core/camera.rs`): pick the zoom factor from the
scroll direction, rescale `target_scale`, then recompute `target_center` so that the
world point that was under the cursor at the target state stays under the cursor. -/
def CameraController.on_scroll (c : CameraController α) (y_offset : α) : CameraController α :=
  let factor := if 0 < y_offset then c.zoom_sensitivity else 1 / c.zoom_sensitivity
  let world_point := c.world_at_screen c.last_cursor_pos
  let target_scale1 := c.target_scale * factor
  let screen_size := c.camera.screen_size
  { c with
    target_scale := target_scale1,
    target_center :=
      ⟨world_point.x - (c.last_cursor_pos.x - screen_size.x * (1 / 2)) / target_scale1,
       world_point.y - (c.last_cursor_pos.y - screen_size.y * (1 / 2)) / target_scale1⟩ }

/-- `CameraController::update` (`core/camera.rs`): exponential-decay interpolation of
the displayed camera toward the target; `t = 1 - exp(-zoom_smoothness * dt)`. -/
noncomputable def CameraController.update (c : CameraController ℝ) (dt : ℝ) :
    CameraController ℝ :=
  let t := 1 - Real.exp (-c.zoom_smoothness * dt)
  let current_scale := c.camera.scale
  let new_scale := current_scale + (c.target_scale - current_scale) * t
  let current_center := c.camera.center
  let new_center : Vec2 ℝ :=
    ⟨current_center.x + (c.target_center.x - current_center.x) * t,
     current_center.y + (c.target_center.y - current_center.y) * t⟩
  { c with camera := { c.camera with scale := new_scale, center := new_center } }

/-! ### Glyph atlas (`core/font.rs`) and text geometry (`shaperenderable.rs`) -/

/-- `GlyphMetrics` (`core/engine/freetype.rs`): pixel width/height, bearings, and
horizontal advance in 1/64-pixel fixed point. -/
structure GlyphMetrics where
  width : ℤ
  height : ℤ
  bearing_x : ℤ
  bearing_y : ℤ
  advance : ℤ
deriving DecidableEq

/-- Model of the external font source as seen by `FontAtlas::cache_glyph`:
`load ch = none` models `load_char` failing; on success the `Bool` records whether
`get_glyph_bitmap` returned a null pointer. -/
structure FontFace where
  load : Char → Option (GlyphMetrics × Bool)

/-- `GlyphInfo` (`core/font.rs`): atlas UV rectangle, pixel size, bearings and
advance (pixels, already converted from 1/64 fixed point). -/
structure GlyphInfo where
  uv_x : ℚ
  uv_y : ℚ
  uv_width : ℚ
  uv_height : ℚ
  width : ℤ
  height : ℤ
  bearing_x : ℤ
  bearing_y : ℤ
  advance : ℚ
deriving DecidableEq

/-- One `gl_tex_sub_image_2d` upload into the atlas texture. -/
structure TexUpload where
  x : ℕ
  y : ℕ
  w : ℕ
  h : ℕ
deriving DecidableEq

/-- `FontAtlas` (`core/font.rs`): shelf-packing state plus the glyph cache
(the `HashMap` is modelled as an association list with newest entry first). -/
structure FontAtlas where
  face : FontFace
  atlas_width : ℕ
  atlas_height : ℕ
  cursor_x : ℕ
  cursor_y : ℕ
  row_height : ℕ
  glyphs : List (Char × GlyphInfo)
  font_size : ℕ

/-- `FontAtlas::cache_glyph` (`core/font.rs`). Mirrors the source exactly: empty
bitmaps are cached with a zero-size UV rect and the cursor untouched; otherwise the
cursor wraps to a new shelf if the glyph does not fit horizontally, then the
atlas-full check happens (note: *after* the wrap mutations, which persist even on
failure), then the bitmap is uploaded and the cursor advanced.
Returns the glyph (or `none`), the new atlas state, and the texture uploads. -/
def FontAtlas.cache_glyph (atlas : FontAtlas) (ch : Char) :
    Option GlyphInfo × FontAtlas × List TexUpload :=
  match atlas.face.load ch with
  | none => (none, atlas, [])
  | some (metrics, bitmap_null) =>
    if bitmap_null ∨ metrics.width = 0 ∨ metrics.height = 0 then
      let info : GlyphInfo :=
        ⟨0, 0, 0, 0, 0, 0, metrics.bearing_x, metrics.bearing_y,
         ((metrics.advance >>> 6 : ℤ) : ℚ)⟩
      (some info, { atlas with glyphs := (ch, info) :: atlas.glyphs }, [])
    else
      let glyph_width := metrics.width.toNat
      let glyph_height := metrics.height.toNat
      let wrap := atlas.atlas_width < atlas.cursor_x + glyph_width
      let cx := if wrap then 0 else atlas.cursor_x
      let cy := if wrap then atlas.cursor_y + atlas.row_height + 1 else atlas.cursor_y
      let rh := if wrap then 0 else atlas.row_height
      if atlas.atlas_height < cy + glyph_height then
        (none, { atlas with cursor_x := cx, cursor_y := cy, row_height := rh }, [])
      else
        let info : GlyphInfo :=
          ⟨(cx : ℚ) / (atlas.atlas_width : ℚ), (cy : ℚ) / (atlas.atlas_height : ℚ),
           (glyph_width : ℚ) / (atlas.atlas_width : ℚ),
           (glyph_height : ℚ) / (atlas.atlas_height : ℚ),
           metrics.width, metrics.height, metrics.bearing_x, metrics.bearing_y,
           ((metrics.advance >>> 6 : ℤ) : ℚ)⟩
        (some info,
         { atlas with
           cursor_x := cx + glyph_width + 1,
           cursor_y := cy,
           row_height := max rh glyph_height,
           glyphs := (ch, info) :: atlas.glyphs },
         [⟨cx, cy, glyph_width, glyph_height⟩])

/-- `FontAtlas::get_glyph` (`core/font.rs`): cached glyphs are returned as-is with
no state change and no texture upload; otherwise delegate to `cache_glyph`. -/
def FontAtlas.get_glyph (atlas : FontAtlas) (ch : Char) :
    Option GlyphInfo × FontAtlas × List TexUpload :=
  match atlas.glyphs.lookup ch with
  | some info => (some info, atlas, [])
  | none => atlas.cache_glyph ch

/-- The per-character loop of `ShapeRenderable::text_geometry` (`shaperenderable.rs`):
state is (vertices, pen cursor_x, atlas, texture uploads). A glyph with zero width or
height advances the pen without emitting triangles; a `None` from `get_glyph`
(load failure or atlas full) emits nothing and leaves the pen where it was; a visible
glyph emits two textured triangles and advances the pen. -/
def text_geometry_go (baseline_y : ℚ) : List Char → FontAtlas → ℚ →
    List ℚ × ℚ × FontAtlas × List TexUpload
  | [], atlas, cursor_x => ([], cursor_x, atlas, [])
  | ch :: rest, atlas, cursor_x =>
    match atlas.get_glyph ch with
    | (some glyph, atlas1, ups) =>
      if glyph.width = 0 ∨ glyph.height = 0 then
        let r := text_geometry_go baseline_y rest atlas1 (cursor_x + glyph.advance)
        (r.1, r.2.1, r.2.2.1, ups ++ r.2.2.2)
      else
        let x0 := cursor_x + (glyph.bearing_x : ℚ)
        let y0 := baseline_y - (glyph.bearing_y : ℚ)
        let x1 := x0 + (glyph.width : ℚ)
        let y1 := y0 + (glyph.height : ℚ)
        let u0 := glyph.uv_x
        let v0 := glyph.uv_y
        let u1 := glyph.uv_x + glyph.uv_width
        let v1 := glyph.uv_y + glyph.uv_height
        let quad := [x0, y1, u0, v1, x1, y1, u1, v1, x1, y0, u1, v0,
                     x0, y1, u0, v1, x1, y0, u1, v0, x0, y0, u0, v0]
        let r := text_geometry_go baseline_y rest atlas1 (cursor_x + glyph.advance)
        (quad ++ r.1, r.2.1, r.2.2.1, ups ++ r.2.2.2)
    | (none, atlas1, ups) =>
      let r := text_geometry_go baseline_y rest atlas1 cursor_x
      (r.1, r.2.1, r.2.2.1, ups ++ r.2.2.2)

/-- `ShapeRenderable::text_geometry`: pen starts at 0, baseline at `font_size`. -/
def text_geometry (text : List Char) (atlas : FontAtlas) :
    List ℚ × ℚ × FontAtlas × List TexUpload :=
  text_geometry_go (atlas.font_size : ℚ) text atlas 0

/-- Concrete font face for witnesses: 'a' is a 3x4 visible glyph, 'b' is 3x5,
' ' is an empty bitmap; advances 448/64 = 7 and 320/64 = 5 pixels. -/
def faceW : FontFace :=
  ⟨fun ch =>
    if ch = 'a' then some (⟨3, 4, 1, 3, 448⟩, false)
    else if ch = 'b' then some (⟨3, 5, 0, 5, 448⟩, false)
    else if ch = ' ' then some (⟨0, 0, 0, 2, 320⟩, true)
    else none⟩

/-- Concrete 16x16 atlas with room for the witnesses' glyphs. -/
def atlasW : FontAtlas := ⟨faceW, 16, 16, 0, 0, 0, [], 12⟩

/-- The glyph info produced by caching 'a' into `atlasW`. -/
def glyphInfoA : GlyphInfo := ⟨0, 0, 3 / 16, 4 / 16, 3, 4, 1, 3, 7⟩

/-- `atlasW` after 'a' has been cached. -/
def atlasW2 : FontAtlas :=
  { atlasW with cursor_x := 4, row_height := 4, glyphs := [('a', glyphInfoA)] }

/-- The glyph info produced by caching ' ' (empty bitmap) into `atlasW`. -/
def glyphInfoSpace : GlyphInfo := ⟨0, 0, 0, 0, 0, 0, 0, 2, 5⟩

/-- `atlasW` after ' ' has been cached. -/
def atlasWSpace : FontAtlas := { atlasW with glyphs := [(' ', glyphInfoSpace)] }

/-- Concrete 8x4 atlas that is too short for the 3x5 glyph 'b': caching 'b' fails
with "atlas full". -/
def atlasFull : FontAtlas := ⟨faceW, 8, 4, 0, 0, 0, [], 4⟩

/-- Concrete camera used by witnesses: center (10, 20), scale 2, screen 800x600. -/
def camQ : Camera2D ℚ := ⟨⟨10, 20⟩, 2, ⟨800, 600⟩⟩

/-- Concrete controller used by the C3 witness. -/
def ctrlQ : CameraController ℚ := ⟨camQ, 2, ⟨10, 20⟩, false, ⟨100, 50⟩, 11 / 10, 6⟩

/-- Concrete controller with zero smoothing, displayed state already at the target:
used by the witness of the amended C4 statement. -/
noncomputable def ctrlSnap : CameraController ℝ :=
  ⟨⟨⟨0, 0⟩, 1, ⟨800, 600⟩⟩, 2, ⟨3, 4⟩, false, ⟨5, 6⟩, 11 / 10, 0⟩

/-- Concrete controller with zero smoothing whose displayed camera differs from its
target: the C4 counterexample shows `update` does not snap it to the target. -/
noncomputable def ctrlStall : CameraController ℝ :=
  ⟨⟨⟨0, 0⟩, 1, ⟨800, 600⟩⟩, 2, ⟨7, 8⟩, false, ⟨5, 6⟩, 11 / 10, 0⟩

/-! ### Geometry / instance batches (`core/geometry.rs`, `graphics2d/shapes/shaperenderable.rs`)

GPU side effects are modelled as an explicit command trace; `gl_gen_buffer` is
modelled by a buffer-name counter (GL buffer names are fresh and positive). -/

/-- `GL_ARRAY_BUFFER` (`core/engine/opengl.rs`, `0x8892`). -/
def GL_ARRAY_BUFFER : ℕ := 0x8892

/-- `GL_TRIANGLES` (`core/engine/opengl.rs`, `0x0004`). -/
def GL_TRIANGLES : ℕ := 0x0004

/-- One call into the GL command layer, as issued by `core/geometry.rs`. -/
inductive GLCmd where
  | genBuffer (buf : ℕ)
  | bindVertexArray (vao : ℕ)
  | bindBuffer (target buf : ℕ)
  | bufferDataEmpty (target bytes : ℕ)
  | bufferSubDataVec2 (target : ℕ) (data : List (ℚ × ℚ))
  | enableVertexAttribArray (location : ℕ)
  | vertexAttribPointerFloat (location size stride offset : ℕ)
  | vertexAttribDivisor (location divisor : ℕ)
deriving DecidableEq

/-- `Attribute` (`core/geometry.rs`): vertex attribute layout descriptor.
`stride`/`offset` are in bytes (`size_of::<GLfloat>() = 4`). -/
structure Attribute where
  location : ℕ
  size : ℤ
  normalize : Bool
  stride : ℕ
  offset : ℕ
  divisor : ℕ
deriving DecidableEq

/-- `Attribute::instanced_vec2` (`core/geometry.rs`): tightly packed vec2, divisor 1. -/
def Attribute.instanced_vec2 (location : ℕ) : Attribute :=
  ⟨location, 2, false, 2 * 4, 0, 1⟩

/-- `Geometry` (`core/geometry.rs`): VAO/VBO handles plus draw metadata.
A handle value of 0 means "not allocated". -/
structure Geometry where
  vao : ℕ
  vbo : ℕ
  vertex_count : ℤ
  drawing_mode : ℕ
  attributes : List Attribute
  instance_vbo : ℕ
  instance_color_vbo : ℕ
  instance_count : ℤ
deriving DecidableEq

/-- `Geometry::enable_instancing_xy` (`core/geometry.rs`): generate the instance VBO
if absent (buffer name `nextBuf + 1`, fresh and nonzero), allocate `max_instances * 2 * 4`
bytes, and configure the per-instance vec2 attribute at location 1.
Returns the new geometry, the new buffer-name counter, and the GL trace. -/
def Geometry.enable_instancing_xy (g : Geometry) (max_instances nextBuf : ℕ) :
    Geometry × ℕ × List GLCmd :=
  let ivbo := if g.instance_vbo = 0 then nextBuf + 1 else g.instance_vbo
  let nextBuf1 := if g.instance_vbo = 0 then nextBuf + 1 else nextBuf
  let genCmds : List GLCmd := if g.instance_vbo = 0 then [.genBuffer (nextBuf + 1)] else []
  let bytes := max_instances * 2 * 4
  let inst_attr := Attribute.instanced_vec2 1
  ({ g with instance_vbo := ivbo },
   nextBuf1,
   genCmds ++
     [.bindVertexArray g.vao, .bindBuffer GL_ARRAY_BUFFER ivbo,
      .bufferDataEmpty GL_ARRAY_BUFFER bytes,
      .enableVertexAttribArray inst_attr.location,
      .vertexAttribPointerFloat inst_attr.location 2 inst_attr.stride inst_attr.offset,
      .vertexAttribDivisor inst_attr.location 1,
      .bindVertexArray 0, .bindBuffer GL_ARRAY_BUFFER 0])

/-- `Geometry::update_instance_xy` (`core/geometry.rs`): early-return when instancing
was never enabled (`instance_vbo == 0`); otherwise orphan + upload the position array
and set `instance_count` to its length. -/
def Geometry.update_instance_xy (g : Geometry) (xy : List (ℚ × ℚ)) :
    Geometry × List GLCmd :=
  if g.instance_vbo = 0 then (g, [])
  else
    ({ g with instance_count := (xy.length : ℤ) },
     [.bindVertexArray g.vao, .bindBuffer GL_ARRAY_BUFFER g.instance_vbo,
      .bufferDataEmpty GL_ARRAY_BUFFER (xy.length * 8),
      .bufferSubDataVec2 GL_ARRAY_BUFFER xy,
      .bindVertexArray 0, .bindBuffer GL_ARRAY_BUFFER 0])

/-- `Geometry::clear_instancing` (`core/geometry.rs`): zero the instance count,
keep the buffer for reuse. -/
def Geometry.clear_instancing (g : Geometry) : Geometry :=
  { g with instance_count := 0 }

/-- The part of `Mesh` (`core/mesh.rs`) the instancing claims depend on. -/
structure Mesh where
  geometry : Geometry
deriving DecidableEq

/-- `ShapeRenderable` (`graphics2d/shapes/shaperenderable.rs`): anchor position,
scale and mesh. -/
structure ShapeRenderable where
  x : ℚ
  y : ℚ
  scale : ℚ
  mesh : Mesh
deriving DecidableEq

/-- How `ShapeRenderable::render` dispatches a draw. -/
inductive DrawMode where
  | instanced
  | single (offset_x offset_y : ℚ)
deriving DecidableEq

/-- The dispatch branch of `ShapeRenderable::render`: instanced iff the geometry's
instance count is positive, otherwise one draw using the renderable's own anchor
as the screen offset. -/
def ShapeRenderable.render_dispatch (s : ShapeRenderable) : DrawMode :=
  if 0 < s.mesh.geometry.instance_count then .instanced else .single s.x s.y

/-- `ShapeRenderable::create_multiple_instances`: delegates to `enable_instancing_xy`. -/
def ShapeRenderable.create_multiple_instances (s : ShapeRenderable)
    (capacity nextBuf : ℕ) : ShapeRenderable × ℕ × List GLCmd :=
  let r := s.mesh.geometry.enable_instancing_xy capacity nextBuf
  ({ s with mesh := { s.mesh with geometry := r.1 } }, r.2.1, r.2.2)

/-- `ShapeRenderable::set_instance_positions`: delegates to `update_instance_xy`. -/
def ShapeRenderable.set_instance_positions (s : ShapeRenderable)
    (positions : List (ℚ × ℚ)) : ShapeRenderable × List GLCmd :=
  let r := s.mesh.geometry.update_instance_xy positions
  ({ s with mesh := { s.mesh with geometry := r.1 } }, r.2)

/-- Concrete geometry with instancing never enabled, for the C5/C10 witnesses. -/
def geomPlain : Geometry := ⟨1, 2, 6, GL_TRIANGLES, [], 0, 0, 0⟩

/-- Concrete renderable wrapping `geomPlain`. -/
def shapePlain : ShapeRenderable := ⟨5, 7, 1, ⟨geomPlain⟩⟩

/-! ### Stroke tessellation (`graphics2d/shapes/shaperenderable.rs`)

The vertex-buffer arithmetic of `line_geometry` and `polyline_geometry` uses
`sqrt`, so it is modelled over `ℝ`. -/

/-- `MIN_STROKE_WIDTH` (`shaperenderable.rs`): 1.5 px. -/
noncomputable def MIN_STROKE_WIDTH : ℝ := 3 / 2

/-- `MITER_LIMIT` (`shaperenderable.rs`, local to `polyline_geometry`): 4.0. -/
def MITER_LIMIT : ℝ := 4

/-- Group a flat vertex buffer `[x0, y0, x1, y1, ...]` into points. -/
def pairUp : List ℝ → List (ℝ × ℝ)
  | x :: y :: rest => (x, y) :: pairUp rest
  | _ => []

/-- `ShapeRenderable::line_geometry` (`shaperenderable.rs`): clamp the stroke width
up to `MIN_STROKE_WIDTH`, return an empty buffer for a zero-length segment,
otherwise offset both endpoints by half the clamped width along the unit
perpendicular and emit the two triangles of the resulting quad
(`v0, v1, v2, v2, v3, v0`). -/
noncomputable def lineVertices (x1 y1 x2 y2 stroke_width0 : ℝ) : List ℝ :=
  let stroke_width := max stroke_width0 MIN_STROKE_WIDTH
  let dx := x2 - x1
  let dy := y2 - y1
  let length := Real.sqrt (dx * dx + dy * dy)
  if length = 0 then []
  else
    let nx := -dy / length
    let ny := dx / length
    let half_thickness := stroke_width / 2
    let ox := nx * half_thickness
    let oy := ny * half_thickness
    [x1 - ox, y1 - oy, x2 - ox, y2 - oy, x2 + ox, y2 + oy,
     x2 + ox, y2 + oy, x1 + ox, y1 + oy, x1 - ox, y1 - oy]

/-- The polyline builder's half thickness, `stroke_width.max(1.0) / 2.0`
(`polyline_geometry` — note the clamp constant there is 1.0, not
`MIN_STROKE_WIDTH`). -/
noncomputable def polylineHalfThickness (stroke_width : ℝ) : ℝ :=
  max stroke_width 1 / 2

/-- `miter_limit_squared = (stroke_width * MITER_LIMIT)^2 / 4` (`polyline_geometry`). -/
noncomputable def miterLimitSquared (stroke_width : ℝ) : ℝ :=
  (stroke_width * MITER_LIMIT) ^ 2 / 4

/-- The per-segment quad of `polyline_geometry`: offset `a` and `b` by the normal
of `ab` scaled to the half thickness and emit the triangles `(a1, a2, b1)` and
`(a2, b1, b2)` (tuple components of the source written out as scalars). -/
noncomputable def segmentQuad (half_thickness : ℝ) (a b : ℝ × ℝ) : List ℝ :=
  let abx := b.1 - a.1
  let aby := b.2 - a.2
  let len_ab := Real.sqrt (abx * abx + aby * aby)
  let nabx := -aby / len_ab * half_thickness
  let naby := abx / len_ab * half_thickness
  [a.1 + nabx, a.2 + naby, a.1 - nabx, a.2 - naby, b.1 + nabx, b.2 + naby,
   a.1 - nabx, a.2 - naby, b.1 + nabx, b.2 + naby, b.1 - nabx, b.2 - naby]

/-- The join geometry of `polyline_geometry` at joint `b` between segments `ab` and
`bc`: when `bc` has positive length and the turn direction `z` is nonzero, emit the
bevel triangle on the turn side, and additionally the miter triangle whenever the
squared distance from `b` to the miter point is within the miter limit. -/
noncomputable def polylineJoin (half_thickness mls : ℝ) (a b c : ℝ × ℝ) : List ℝ :=
  let abx := b.1 - a.1
  let aby := b.2 - a.2
  let len_ab := Real.sqrt (abx * abx + aby * aby)
  let nabx := -aby / len_ab * half_thickness
  let naby := abx / len_ab * half_thickness
  let bcx := c.1 - b.1
  let bcy := c.2 - b.2
  let len_bc := Real.sqrt (bcx * bcx + bcy * bcy)
  if 0 < len_bc then
    let nbcx := -bcy / len_bc * half_thickness
    let nbcy := bcx / len_bc * half_thickness
    let z := abx * bcy - aby * bcx
    let bevel :=
      if z < 0 then [b.1, b.2, b.1 + nabx, b.2 + naby, b.1 + nbcx, b.2 + nbcy]
      else if 0 < z then [b.1, b.2, b.1 - nabx, b.2 - naby, b.1 - nbcx, b.2 - nbcy]
      else []
    let miter :=
      if z ≠ 0 then
        let ajx := if z < 0 then a.1 + nabx else a.1 - nabx
        let ajy := if z < 0 then a.2 + naby else a.2 - naby
        let bjx := if z < 0 then b.1 + nbcx else b.1 - nbcx
        let bjy := if z < 0 then b.2 + nbcy else b.2 - nbcy
        let alpha := (bcy * (bjx - ajx) + bcx * (ajy - bjy)) / z
        let mx := ajx + alpha * abx
        let my := ajy + alpha * aby
        if (mx - b.1) ^ 2 + (my - b.2) ^ 2 ≤ mls then
          if z < 0 then [mx, my, b.1 + nabx, b.2 + naby, b.1 + nbcx, b.2 + nbcy]
          else [mx, my, b.1 - nabx, b.2 - naby, b.1 - nbcx, b.2 - nbcy]
        else []
      else []
    bevel ++ miter
  else []

/-- One iteration of the `polyline_geometry` loop body: segment quad then join. -/
noncomputable def polyBody (half_thickness mls : ℝ) (a b c : ℝ × ℝ) : List ℝ :=
  segmentQuad half_thickness a b ++ polylineJoin half_thickness mls a b c

/-- The `polyline_geometry` loop: for the last segment the "fake" third point is the
previous point `a`, which makes `z = 0` and hence emits no join geometry. -/
noncomputable def polyLoop (half_thickness mls : ℝ) :
    (ℝ × ℝ) → (ℝ × ℝ) → List (ℝ × ℝ) → List ℝ
  | a, b, [] => polyBody half_thickness mls a b a
  | a, b, c :: rest =>
    polyBody half_thickness mls a b c ++ polyLoop half_thickness mls b c rest

/-- The leading-edge scan of `polyline_geometry`: skip zero-length initial segments,
yielding the first point at positive distance from `a` together with the points
after it, or `none` when every point coincides with `a`. -/
noncomputable def skipZeroLen (a : ℝ × ℝ) :
    List (ℝ × ℝ) → Option ((ℝ × ℝ) × List (ℝ × ℝ))
  | [] => none
  | b :: rest =>
    if Real.sqrt ((b.1 - a.1) * (b.1 - a.1) + (b.2 - a.2) * (b.2 - a.2)) = 0 then
      skipZeroLen a rest
    else some (b, rest)

/-- `ShapeRenderable::polyline_geometry` (`shaperenderable.rs`), vertex buffer only:
fewer than two points, or all points coincident, yield an empty buffer. -/
noncomputable def polylineVertices (points : List (ℝ × ℝ)) (stroke_width : ℝ) :
    List ℝ :=
  if points.length < 2 then []
  else
    match points with
    | [] => []
    | a :: rest =>
      match skipZeroLen a rest with
      | none => []
      | some (b, rest1) =>
        polyLoop (polylineHalfThickness stroke_width) (miterLimitSquared stroke_width)
          a b rest1

/-- The turn direction `z = ab.0 * bc.1 - ab.1 * bc.0` at joint `b`
(`polyline_geometry`). -/
noncomputable def turnZ (a b c : ℝ × ℝ) : ℝ :=
  (b.1 - a.1) * (c.2 - b.2) - (b.2 - a.2) * (c.1 - b.1)

/-- X component of the segment normal scaled to the half thickness, as computed in
`polyline_geometry` (`normal_ab` for the segment from `a` to `b`; `normal_bc` is
`normalX half b c`). -/
noncomputable def normalX (half_thickness : ℝ) (a b : ℝ × ℝ) : ℝ :=
  -(b.2 - a.2) / Real.sqrt ((b.1 - a.1) * (b.1 - a.1) + (b.2 - a.2) * (b.2 - a.2)) *
    half_thickness

/-- Y component of the scaled segment normal (see `normalX`). -/
noncomputable def normalY (half_thickness : ℝ) (a b : ℝ × ℝ) : ℝ :=
  (b.1 - a.1) / Real.sqrt ((b.1 - a.1) * (b.1 - a.1) + (b.2 - a.2) * (b.2 - a.2)) *
    half_thickness

/-- The bevel triangle emitted at joint `b`: `[b, b1, b3]` for `z < 0` and
`[b, b2, b4]` otherwise (`polyline_geometry`). -/
noncomputable def bevelTri (half_thickness : ℝ) (a b c : ℝ × ℝ) : List ℝ :=
  if turnZ a b c < 0 then
    [b.1, b.2, b.1 + normalX half_thickness a b, b.2 + normalY half_thickness a b,
     b.1 + normalX half_thickness b c, b.2 + normalY half_thickness b c]
  else
    [b.1, b.2, b.1 - normalX half_thickness a b, b.2 - normalY half_thickness a b,
     b.1 - normalX half_thickness b c, b.2 - normalY half_thickness b c]

/-- `alpha` of the miter intersection (`polyline_geometry`), with the offset points
`a_j`/`b_j` already resolved by the turn direction
(`(a1, b3)` for `z < 0`, `(a2, b4)` otherwise). -/
noncomputable def miterAlpha (half_thickness : ℝ) (a b c : ℝ × ℝ) : ℝ :=
  if turnZ a b c < 0 then
    ((c.2 - b.2) * (b.1 + normalX half_thickness b c - (a.1 + normalX half_thickness a b)) +
        (c.1 - b.1) *
          (a.2 + normalY half_thickness a b - (b.2 + normalY half_thickness b c))) /
      turnZ a b c
  else
    ((c.2 - b.2) * (b.1 - normalX half_thickness b c - (a.1 - normalX half_thickness a b)) +
        (c.1 - b.1) *
          (a.2 - normalY half_thickness a b - (b.2 - normalY half_thickness b c))) /
      turnZ a b c

/-- X coordinate of the miter point `m = a_j + alpha * ab` (`polyline_geometry`). -/
noncomputable def miterX (half_thickness : ℝ) (a b c : ℝ × ℝ) : ℝ :=
  (if turnZ a b c < 0 then a.1 + normalX half_thickness a b
   else a.1 - normalX half_thickness a b) +
    miterAlpha half_thickness a b c * (b.1 - a.1)

/-- Y coordinate of the miter point (see `miterX`). -/
noncomputable def miterY (half_thickness : ℝ) (a b c : ℝ × ℝ) : ℝ :=
  (if turnZ a b c < 0 then a.2 + normalY half_thickness a b
   else a.2 - normalY half_thickness a b) +
    miterAlpha half_thickness a b c * (b.2 - a.2)

/-- `dist2`, the squared distance from the joint to the miter point
(`polyline_geometry`). -/
noncomputable def miterDistSq (half_thickness : ℝ) (a b c : ℝ × ℝ) : ℝ :=
  (miterX half_thickness a b c - b.1) ^ 2 + (miterY half_thickness a b c - b.2) ^ 2

/-- The miter triangle `[m, b1, b3]` (resp. `[m, b2, b4]`), sharing the bevel's two
offset vertices (`polyline_geometry`). -/
noncomputable def miterTri (half_thickness : ℝ) (a b c : ℝ × ℝ) : List ℝ :=
  if turnZ a b c < 0 then
    [miterX half_thickness a b c, miterY half_thickness a b c,
     b.1 + normalX half_thickness a b, b.2 + normalY half_thickness a b,
     b.1 + normalX half_thickness b c, b.2 + normalY half_thickness b c]
  else
    [miterX half_thickness a b c, miterY half_thickness a b c,
     b.1 - normalX half_thickness a b, b.2 - normalY half_thickness a b,
     b.1 - normalX half_thickness b c, b.2 - normalY half_thickness b c]

/-- C1: for every camera with positive scale, every zoom factor > 0 and every screen
point `p` (visible or not), `zoom_at` leaves `screen_to_world p` unchanged within
1e-3 (the difference is in fact exactly zero in exact arithmetic). -/
theorem zoom_at_fixes_cursor_world (c : Camera2D α) (factor : α) (p : Vec2 α)
    (hs : 0 < c.scale) (hf : 0 < factor) :
    |((c.zoom_at factor p).screen_to_world p).x - (c.screen_to_world p).x| ≤ 1 / 1000 ∧
    |((c.zoom_at factor p).screen_to_world p).y - (c.screen_to_world p).y| ≤ 1 / 1000 := by
  have hx : ((c.zoom_at factor p).screen_to_world p).x = (c.screen_to_world p).x := by
    simp only [Camera2D.zoom_at, Camera2D.screen_to_world]
    ring
  have hy : ((c.zoom_at factor p).screen_to_world p).y = (c.screen_to_world p).y := by
    simp only [Camera2D.zoom_at, Camera2D.screen_to_world]
    ring
  rw [hx, hy, sub_self, abs_zero]
  norm_num

theorem zoom_at_fixes_cursor_world_witness :
    |((camQ.zoom_at 3 ⟨-50, 900⟩).screen_to_world ⟨-50, 900⟩).x -
      (camQ.screen_to_world ⟨-50, 900⟩).x| ≤ 1 / 1000 ∧
    |((camQ.zoom_at 3 ⟨-50, 900⟩).screen_to_world ⟨-50, 900⟩).y -
      (camQ.screen_to_world ⟨-50, 900⟩).y| ≤ 1 / 1000 :=
  zoom_at_fixes_cursor_world camQ 3 ⟨-50, 900⟩ (by norm_num [camQ]) (by norm_num)

/-- C2: `world_to_screen` is exactly `p ↦ (p - center) * scale + screen_size / 2`,
and for positive scale `screen_to_world` is its two-sided inverse. -/
theorem world_screen_round_trip (c : Camera2D α) (p : Vec2 α) (hs : 0 < c.scale) :
    c.world_to_screen p =
      ⟨(p.x - c.center.x) * c.scale + c.screen_size.x / 2,
       (p.y - c.center.y) * c.scale + c.screen_size.y / 2⟩ ∧
    c.world_to_screen (c.screen_to_world p) = p ∧
    c.screen_to_world (c.world_to_screen p) = p := by
  have hs0 : c.scale ≠ 0 := ne_of_gt hs
  refine ⟨?_, ?_, ?_⟩
  · ext <;> simp only [Camera2D.world_to_screen] <;> ring
  · ext <;> simp only [Camera2D.world_to_screen, Camera2D.screen_to_world] <;>
      field_simp <;> ring
  · ext <;> simp only [Camera2D.world_to_screen, Camera2D.screen_to_world] <;>
      field_simp <;> ring

theorem world_screen_round_trip_witness :
    camQ.world_to_screen ⟨-3, 7⟩ =
      ⟨((-3 : ℚ) - camQ.center.x) * camQ.scale + camQ.screen_size.x / 2,
       ((7 : ℚ) - camQ.center.y) * camQ.scale + camQ.screen_size.y / 2⟩ ∧
    camQ.world_to_screen (camQ.screen_to_world ⟨-3, 7⟩) = ⟨-3, 7⟩ ∧
    camQ.screen_to_world (camQ.world_to_screen ⟨-3, 7⟩) = ⟨-3, 7⟩ :=
  world_screen_round_trip camQ ⟨-3, 7⟩ (by norm_num [camQ])

/-- C3: `on_scroll` preserves the world point under the cursor as computed from the
*target* center and scale (the zoom-at-cursor invariant on the animation target),
exactly in real arithmetic. -/
theorem on_scroll_fixes_target_cursor_world (c : CameraController α) (y_offset : α)
    (hs : 0 < c.target_scale) (hs1 : 0 < (c.on_scroll y_offset).target_scale) :
    (c.on_scroll y_offset).world_at_screen c.last_cursor_pos =
      c.world_at_screen c.last_cursor_pos := by
  ext <;> simp only [CameraController.on_scroll, CameraController.world_at_screen] <;>
    ring

theorem on_scroll_fixes_target_cursor_world_witness :
    (ctrlQ.on_scroll 1).world_at_screen ctrlQ.last_cursor_pos =
      ctrlQ.world_at_screen ctrlQ.last_cursor_pos :=
  on_scroll_fixes_target_cursor_world ctrlQ 1 (by norm_num [ctrlQ])
    (by norm_num [ctrlQ, CameraController.on_scroll])

/-- C4 counterexample: on a controller with `zoom_smoothness = 0` whose displayed
camera differs from the target, `update` does *not* set the displayed camera to the
target: `t = 1 - exp(0) = 0`, so the camera is left unchanged (scale stays 1, not 2). -/
theorem update_zero_smoothness_no_snap :
    ¬ ((ctrlStall.update 1).camera.scale = ctrlStall.target_scale ∧
       (ctrlStall.update 1).camera.center = ctrlStall.target_center) := by
  intro h
  have h1 := h.1
  rw [show (ctrlStall.update 1).camera.scale = 1 by
        simp [CameraController.update, ctrlStall, Real.exp_zero]] at h1
  rw [show ctrlStall.target_scale = 2 by rfl] at h1
  norm_num at h1

/-- C4 amended: with `zoom_smoothness = 0` the interpolation factor is
`1 - exp(0) = 0`, so `update dt` leaves the controller (in particular the displayed
camera) entirely unchanged for every `dt` — there is no snap-to-target special case. -/
theorem update_zero_smoothness_is_noop (c : CameraController ℝ) (dt : ℝ)
    (h : c.zoom_smoothness = 0) : c.update dt = c := by
  simp only [CameraController.update, h, neg_zero, zero_mul, Real.exp_zero, sub_self,
    mul_zero, add_zero]
  rw [← h]

theorem update_zero_smoothness_is_noop_witness :
    ctrlSnap.update (1 / 60) = ctrlSnap :=
  update_zero_smoothness_is_noop ctrlSnap (1 / 60) rfl

/-- After `enable_instancing_xy` the instance VBO handle is always nonzero: either a
fresh positive buffer name was generated, or the existing nonzero handle is kept. -/
theorem enable_instancing_xy_vbo_ne_zero (g : Geometry) (capacity nextBuf : ℕ) :
    ((g.enable_instancing_xy capacity nextBuf).1).instance_vbo ≠ 0 := by
  simp only [Geometry.enable_instancing_xy]
  split_ifs with h
  · simp
  · simpa using h

/-- C5: after enabling instancing with any capacity and then setting `k` instance
positions, the effective instance count used for drawing is exactly `k`,
independent of the capacity passed to `create_multiple_instances`. -/
theorem set_instance_positions_sets_count (s : ShapeRenderable)
    (capacity nextBuf : ℕ) (positions : List (ℚ × ℚ))
    (hk : positions.length ≤ capacity) :
    (((s.create_multiple_instances capacity nextBuf).1).set_instance_positions
        positions).1.mesh.geometry.instance_count = (positions.length : ℤ) := by
  have hv := enable_instancing_xy_vbo_ne_zero s.mesh.geometry capacity nextBuf
  simp only [ShapeRenderable.create_multiple_instances,
    ShapeRenderable.set_instance_positions, Geometry.update_instance_xy]
  simp only [if_neg hv]

theorem set_instance_positions_sets_count_witness :
    (((shapePlain.create_multiple_instances 3 0).1).set_instance_positions
        [(1, 2), (3, 4)]).1.mesh.geometry.instance_count =
      (([((1 : ℚ), (2 : ℚ)), (3, 4)].length : ℕ) : ℤ) :=
  set_instance_positions_sets_count shapePlain 3 0 [(1, 2), (3, 4)] (by norm_num)

/-- C10: on a renderable whose instancing was never enabled (`instance_vbo = 0`,
instance count 0), `set_instance_positions` is a complete no-op — the renderable is
unchanged and no GL command (no buffer creation, no upload) is issued — and the
renderable still dispatches a single (non-instanced) draw at its own anchor. -/
theorem set_instance_positions_noop_without_instancing (s : ShapeRenderable)
    (positions : List (ℚ × ℚ)) (h0 : s.mesh.geometry.instance_vbo = 0)
    (hc : s.mesh.geometry.instance_count = 0) :
    s.set_instance_positions positions = (s, []) ∧
    s.render_dispatch = DrawMode.single s.x s.y := by
  constructor
  · simp [ShapeRenderable.set_instance_positions, Geometry.update_instance_xy, h0]
  · simp [ShapeRenderable.render_dispatch, hc]

/-- C9: once a character has been requested successfully, a second `get_glyph` for it
returns the identical `GlyphInfo`, leaves the whole atlas state (cursor, row height,
cache) unchanged, and performs no texture upload. -/
theorem get_glyph_second_call_cached (atlas : FontAtlas) (ch : Char)
    (info : GlyphInfo) (atlas2 : FontAtlas) (ups : List TexUpload)
    (h : atlas.get_glyph ch = (some info, atlas2, ups)) :
    atlas2.get_glyph ch = (some info, atlas2, []) := by
  have hmem : atlas2.glyphs.lookup ch = some info := by
    unfold FontAtlas.get_glyph at h
    cases hl : atlas.glyphs.lookup ch with
    | some info0 =>
      rw [hl] at h
      simp only [Prod.mk.injEq, Option.some.injEq] at h
      rw [← h.2.1, ← h.1, hl]
    | none =>
      rw [hl] at h
      unfold FontAtlas.cache_glyph at h
      cases hload : atlas.face.load ch with
      | none => rw [hload] at h; simp at h
      | some mb =>
        obtain ⟨m, bn⟩ := mb
        rw [hload] at h
        simp only at h
        split_ifs at h <;>
          (rw [Prod.mk.injEq, Prod.mk.injEq] at h
           first
             | exact Option.noConfusion h.1
             | (rw [← h.2.1, ← Option.some_inj.mp h.1]
                simp [List.lookup]))
  unfold FontAtlas.get_glyph
  rw [hmem]

theorem get_glyph_second_call_cached_witness :
    atlasW2.get_glyph 'a' = (some glyphInfoA, atlasW2, []) :=
  get_glyph_second_call_cached atlasW 'a' glyphInfoA atlasW2 [⟨0, 0, 3, 4⟩] (by
    have h7 : ((448 : ℤ) >>> 6) = 7 := by decide
    simp [FontAtlas.get_glyph, FontAtlas.cache_glyph, atlasW, atlasW2, faceW,
      glyphInfoA, List.lookup, h7])

/-- C8 counterexample: on the full atlas, `get_glyph 'b'` fails, and `text_geometry`
on the string "b" emits no triangles but also does *not* advance the pen cursor:
the final pen position is 0, although the glyph's advance is 448 >> 6 = 7 ≠ 0. -/
theorem text_atlas_full_cursor_not_advanced :
    (text_geometry ['b'] atlasFull).2.1 = 0 ∧
    (text_geometry ['b'] atlasFull).1 = [] ∧
    ((((448 : ℤ) >>> 6 : ℤ) : ℚ) ≠ 0) := by
  refine ⟨rfl, rfl, ?_⟩
  have h7 : ((448 : ℤ) >>> 6) = 7 := by decide
  rw [h7]
  norm_num

/-- C8 amended: an invisible glyph (zero width or height) contributes no triangles
but advances the pen by its advance width, while a glyph whose `get_glyph` fails
(load failure or atlas full) contributes no triangles and leaves the pen where it
was; in both cases processing simply continues with the remaining characters. -/
theorem text_invisible_and_failed_glyph_handling (baseline : ℚ)
    (atlasA : FontAtlas) (curA : ℚ) (chA : Char) (restA : List Char)
    (g : GlyphInfo) (atlasA1 : FontAtlas) (upsA : List TexUpload)
    (atlasB : FontAtlas) (curB : ℚ) (chB : Char) (restB : List Char)
    (atlasB1 : FontAtlas) (upsB : List TexUpload)
    (hA : atlasA.get_glyph chA = (some g, atlasA1, upsA))
    (hEmpty : g.width = 0 ∨ g.height = 0)
    (hB : atlasB.get_glyph chB = (none, atlasB1, upsB)) :
    (text_geometry_go baseline (chA :: restA) atlasA curA).1 =
      (text_geometry_go baseline restA atlasA1 (curA + g.advance)).1 ∧
    (text_geometry_go baseline (chA :: restA) atlasA curA).2.1 =
      (text_geometry_go baseline restA atlasA1 (curA + g.advance)).2.1 ∧
    (text_geometry_go baseline (chB :: restB) atlasB curB).1 =
      (text_geometry_go baseline restB atlasB1 curB).1 ∧
    (text_geometry_go baseline (chB :: restB) atlasB curB).2.1 =
      (text_geometry_go baseline restB atlasB1 curB).2.1 := by
  have eA : text_geometry_go baseline (chA :: restA) atlasA curA =
      (let r := text_geometry_go baseline restA atlasA1 (curA + g.advance)
       (r.1, r.2.1, r.2.2.1, upsA ++ r.2.2.2)) := by
    rw [text_geometry_go, hA]
    simp only [if_pos hEmpty]
  have eB : text_geometry_go baseline (chB :: restB) atlasB curB =
      (let r := text_geometry_go baseline restB atlasB1 curB
       (r.1, r.2.1, r.2.2.1, upsB ++ r.2.2.2)) := by
    rw [text_geometry_go, hB]
  exact ⟨by rw [eA], by rw [eA], by rw [eB], by rw [eB]⟩

theorem text_invisible_and_failed_glyph_handling_witness :
    (text_geometry_go 12 [' '] atlasW 0).1 =
      (text_geometry_go 12 [] atlasWSpace (0 + glyphInfoSpace.advance)).1 ∧
    (text_geometry_go 12 [' '] atlasW 0).2.1 =
      (text_geometry_go 12 [] atlasWSpace (0 + glyphInfoSpace.advance)).2.1 ∧
    (text_geometry_go 12 ['b'] atlasFull 0).1 =
      (text_geometry_go 12 [] atlasFull 0).1 ∧
    (text_geometry_go 12 ['b'] atlasFull 0).2.1 =
      (text_geometry_go 12 [] atlasFull 0).2.1 :=
  text_invisible_and_failed_glyph_handling 12 atlasW 0 ' ' [] glyphInfoSpace
    atlasWSpace [] atlasFull 0 'b' [] atlasFull [] (by rfl) (Or.inl rfl) (by rfl)

theorem set_instance_positions_noop_without_instancing_witness :
    shapePlain.set_instance_positions [(1, 2), (3, 4), (5, 6)] = (shapePlain, []) ∧
    shapePlain.render_dispatch = DrawMode.single shapePlain.x shapePlain.y :=
  set_instance_positions_noop_without_instancing shapePlain [(1, 2), (3, 4), (5, 6)]
    rfl rfl

/-- Offsetting by the normal of `(vx, vy)` normalised to length `h`: the squared
offset equals `h^2` whenever `(vx, vy)` is nonzero. -/
theorem offset_normSq_eq (vx vy h : ℝ) (hS : 0 < vx * vx + vy * vy) :
    (-vy / Real.sqrt (vx * vx + vy * vy) * h) ^ 2 +
      (vx / Real.sqrt (vx * vx + vy * vy) * h) ^ 2 = h ^ 2 := by
  have hL : Real.sqrt (vx * vx + vy * vy) ^ 2 = vx * vx + vy * vy :=
    Real.sq_sqrt hS.le
  have hL0 : Real.sqrt (vx * vx + vy * vy) ≠ 0 := (Real.sqrt_pos.mpr hS).ne'
  have key : (-vy / Real.sqrt (vx * vx + vy * vy) * h) ^ 2 +
      (vx / Real.sqrt (vx * vx + vy * vy) * h) ^ 2 =
      (vx * vx + vy * vy) * h ^ 2 / Real.sqrt (vx * vx + vy * vy) ^ 2 := by
    field_simp
    ring
  rw [key, hL, mul_comm, mul_div_assoc, div_self hS.ne', mul_one]

/-- The squared normal offset is never more than `h^2` (also covering the degenerate
zero-vector case, where the offset is zero). -/
theorem offset_normSq_le (vx vy h : ℝ) :
    (-vy / Real.sqrt (vx * vx + vy * vy) * h) ^ 2 +
      (vx / Real.sqrt (vx * vx + vy * vy) * h) ^ 2 ≤ h ^ 2 := by
  have hS : 0 ≤ vx * vx + vy * vy := add_nonneg (mul_self_nonneg vx) (mul_self_nonneg vy)
  rcases eq_or_lt_of_le hS with h0 | hpos
  · have hvx : vx = 0 := by nlinarith [mul_self_nonneg vx, mul_self_nonneg vy]
    have hvy : vy = 0 := by nlinarith [mul_self_nonneg vx, mul_self_nonneg vy]
    rw [hvx, hvy]
    simp [sq_nonneg]
  · exact le_of_eq (offset_normSq_eq vx vy h hpos)

/-- C7 amended: the Line builder clamps the requested stroke width up to
`MIN_STROKE_WIDTH = 1.5`, so every emitted line-quad vertex lies at squared distance
exactly `(max w 1.5 / 2)^2` from one of the two endpoints and the line half
thickness is at least 3/4 px; the Polyline builder, however, clamps at 1.0, so its
half thickness is only guaranteed to be at least 1/2 px. -/
theorem stroke_width_clamping (w x1 y1 x2 y2 : ℝ) (p : ℝ × ℝ)
    (hp : p ∈ pairUp (lineVertices x1 y1 x2 y2 w)) :
    ((p.1 - x1) ^ 2 + (p.2 - y1) ^ 2 = (max w MIN_STROKE_WIDTH / 2) ^ 2 ∨
     (p.1 - x2) ^ 2 + (p.2 - y2) ^ 2 = (max w MIN_STROKE_WIDTH / 2) ^ 2) ∧
    3 / 4 ≤ max w MIN_STROKE_WIDTH / 2 ∧
    1 / 2 ≤ polylineHalfThickness w := by
  refine ⟨?_, ?_, ?_⟩
  · simp only [lineVertices] at hp
    by_cases hlen : Real.sqrt ((x2 - x1) * (x2 - x1) + (y2 - y1) * (y2 - y1)) = 0
    · rw [if_pos hlen] at hp
      simp [pairUp] at hp
    · rw [if_neg hlen] at hp
      have hS0 : (x2 - x1) * (x2 - x1) + (y2 - y1) * (y2 - y1) ≠ 0 := by
        intro h0
        exact hlen (by rw [h0, Real.sqrt_zero])
      have hS : 0 < (x2 - x1) * (x2 - x1) + (y2 - y1) * (y2 - y1) :=
        lt_of_le_of_ne
          (add_nonneg (mul_self_nonneg (x2 - x1)) (mul_self_nonneg (y2 - y1)))
          (Ne.symm hS0)
      have hofs := offset_normSq_eq (x2 - x1) (y2 - y1) (max w MIN_STROKE_WIDTH / 2) hS
      simp only [pairUp, List.mem_cons, List.not_mem_nil, or_false] at hp
      rcases hp with rfl | rfl | rfl | rfl | rfl | rfl <;>
        simp only [add_sub_cancel_left, sub_sub_cancel_left, neg_sq] <;>
        [exact Or.inl hofs; exact Or.inr hofs; exact Or.inr hofs; exact Or.inr hofs;
         exact Or.inl hofs; exact Or.inl hofs]
  · have := le_max_right w MIN_STROKE_WIDTH
    rw [MIN_STROKE_WIDTH] at this ⊢
    linarith
  · have := le_max_right w (1 : ℝ)
    rw [polylineHalfThickness]
    linarith

theorem stroke_width_clamping_witness :
    (((0 : ℝ) - 0) ^ 2 + ((-(3 / 4) : ℝ) - 0) ^ 2 = (max 1 MIN_STROKE_WIDTH / 2) ^ 2 ∨
     ((0 : ℝ) - 1) ^ 2 + ((-(3 / 4) : ℝ) - 0) ^ 2 = (max 1 MIN_STROKE_WIDTH / 2) ^ 2) ∧
    3 / 4 ≤ max 1 MIN_STROKE_WIDTH / 2 ∧
    1 / 2 ≤ polylineHalfThickness 1 :=
  stroke_width_clamping 1 0 0 1 0 (0, -(3 / 4)) (by
    have hmax : max (1 : ℝ) MIN_STROKE_WIDTH = 3 / 2 := by
      rw [MIN_STROKE_WIDTH]
      exact max_eq_right (by norm_num)
    norm_num [lineVertices, pairUp, hmax, Real.sqrt_one])

/-- C7 counterexample: the Polyline builder does *not* clamp a 1.2 px stroke up to
1.5 px — its half thickness is `max 1.2 1 / 2 = 0.6 < 0.75`, and the emitted quad
for the polyline (0,0)-(1,0) has its vertices offset by exactly 0.6 px. -/
theorem polyline_thin_stroke_not_clamped :
    polylineVertices [(0, 0), (1, 0)] (6 / 5) =
      [0, 3 / 5, 0, -(3 / 5), 1, 3 / 5, 0, -(3 / 5), 1, 3 / 5, 1, -(3 / 5)] ∧
    polylineHalfThickness (6 / 5) = 3 / 5 ∧
    (3 / 5 : ℝ) < 3 / 4 := by
  have hmax : max (6 / 5 : ℝ) 1 = 6 / 5 := max_eq_left (by norm_num)
  refine ⟨?_, ?_, by norm_num⟩
  · norm_num [polylineVertices, skipZeroLen, polyLoop, polyBody, segmentQuad,
      polylineJoin, polylineHalfThickness, miterLimitSquared, MITER_LIMIT,
      hmax, Real.sqrt_one]
  · rw [polylineHalfThickness, hmax]
    norm_num

/-- C6 counterexample: for the right-angle polyline (0,0)-(1,0)-(1,1) with stroke
width 2 the miter test passes (squared distance 2 ≤ 16), yet the emitted geometry
still contains the bevel triangle `[1,0, 1,-1, 2,0]` *in addition to* the miter
triangle `[2,-1, 1,-1, 2,0]` — the miter does not replace the bevel, as the
second conjunct (inequality with the miter-only buffer) shows. -/
theorem polyline_bevel_not_replaced_by_miter :
    polylineVertices [(0, 0), (1, 0), (1, 1)] 2 =
      [0, 1, 0, -1, 1, 1, 0, -1, 1, 1, 1, -1,
       1, 0, 1, -1, 2, 0,
       2, -1, 1, -1, 2, 0,
       0, 0, 2, 0, 0, 1, 2, 0, 0, 1, 2, 1] ∧
    polylineVertices [(0, 0), (1, 0), (1, 1)] 2 ≠
      [0, 1, 0, -1, 1, 1, 0, -1, 1, 1, 1, -1,
       2, -1, 1, -1, 2, 0,
       0, 0, 2, 0, 0, 1, 2, 0, 0, 1, 2, 1] := by
  have hmax : max (2 : ℝ) 1 = 2 := max_eq_left (by norm_num)
  have hL : polylineVertices [(0, 0), (1, 0), (1, 1)] 2 =
      [0, 1, 0, -1, 1, 1, 0, -1, 1, 1, 1, -1,
       1, 0, 1, -1, 2, 0,
       2, -1, 1, -1, 2, 0,
       0, 0, 2, 0, 0, 1, 2, 0, 0, 1, 2, 1] := by
    norm_num [polylineVertices, skipZeroLen, polyLoop, polyBody, segmentQuad,
      polylineJoin, polylineHalfThickness, miterLimitSquared, MITER_LIMIT,
      hmax, Real.sqrt_one]
  refine ⟨hL, ?_⟩
  rw [hL]
  intro hEq
  have hlen := congrArg List.length hEq
  simp at hlen

/-- C6 amended: at a joint with nonzero turn direction the join geometry is exactly
the bevel triangle followed by the miter triangle when the miter test passes, and
the bevel triangle alone when it fails — the miter is emitted in addition to the
bevel, never replacing it — and when the miter test fails (a sharp turn beyond the
miter limit) every emitted join vertex lies within the half thickness of the joint,
so no spike extends past it. -/
theorem polylineJoin_bevel_structure (half_thickness mls : ℝ) (a b c : ℝ × ℝ)
    (hz : turnZ a b c ≠ 0) :
    polylineJoin half_thickness mls a b c =
      bevelTri half_thickness a b c ++
        (if miterDistSq half_thickness a b c ≤ mls then miterTri half_thickness a b c
         else []) ∧
    (¬ miterDistSq half_thickness a b c ≤ mls →
      ∀ p ∈ pairUp (polylineJoin half_thickness mls a b c),
        (p.1 - b.1) ^ 2 + (p.2 - b.2) ^ 2 ≤ half_thickness ^ 2) := by
  have hzu : (b.1 - a.1) * (c.2 - b.2) - (b.2 - a.2) * (c.1 - b.1) ≠ 0 := by
    simpa [turnZ] using hz
  have hnonzero : ¬((c.1 - b.1) = 0 ∧ (c.2 - b.2) = 0) := by
    rintro ⟨u, v⟩
    exact hzu (by rw [u, v]; ring)
  have hSpos : 0 < (c.1 - b.1) * (c.1 - b.1) + (c.2 - b.2) * (c.2 - b.2) := by
    rcases not_and_or.mp hnonzero with hx | hy
    · have := mul_self_pos.mpr hx
      nlinarith [mul_self_nonneg (c.2 - b.2)]
    · have := mul_self_pos.mpr hy
      nlinarith [mul_self_nonneg (c.1 - b.1)]
  have hbcpos : 0 < Real.sqrt ((c.1 - b.1) * (c.1 - b.1) + (c.2 - b.2) * (c.2 - b.2)) :=
    Real.sqrt_pos.mpr hSpos
  have hmain : polylineJoin half_thickness mls a b c =
      bevelTri half_thickness a b c ++
        (if miterDistSq half_thickness a b c ≤ mls then miterTri half_thickness a b c
         else []) := by
    rcases lt_trichotomy (turnZ a b c) 0 with hzs | hzs | hzs
    · have hzs' : (b.1 - a.1) * (c.2 - b.2) - (b.2 - a.2) * (c.1 - b.1) < 0 := by
        simpa [turnZ] using hzs
      simp only [polylineJoin, bevelTri, miterTri, miterDistSq, miterX, miterY,
        miterAlpha, normalX, normalY, turnZ, if_pos hbcpos, if_pos hzs', if_pos hzu]
    · exact absurd hzs hz
    · have hzs' : 0 < (b.1 - a.1) * (c.2 - b.2) - (b.2 - a.2) * (c.1 - b.1) := by
        simpa [turnZ] using hzs
      have hneg : ¬((b.1 - a.1) * (c.2 - b.2) - (b.2 - a.2) * (c.1 - b.1) < 0) :=
        not_lt_of_gt hzs'
      simp only [polylineJoin, bevelTri, miterTri, miterDistSq, miterX, miterY,
        miterAlpha, normalX, normalY, turnZ, if_pos hbcpos, if_neg hneg, if_pos hzs',
        if_pos hzu]
  refine ⟨hmain, ?_⟩
  intro hfail p hp
  rw [hmain, if_neg hfail, List.append_nil] at hp
  simp only [bevelTri] at hp
  split_ifs at hp <;>
    simp only [pairUp, normalX, normalY, List.mem_cons, List.not_mem_nil,
      or_false] at hp <;>
    rcases hp with rfl | rfl | rfl <;>
    simp only [add_sub_cancel_left, sub_sub_cancel_left, neg_sq] <;>
    first
      | exact offset_normSq_le _ _ _
      | (norm_num [sub_self]; try positivity)

theorem polylineJoin_bevel_structure_witness :
    polylineJoin 1 16 (0, 0) (1, 0) (1, 1) =
      bevelTri 1 (0, 0) (1, 0) (1, 1) ++
        (if miterDistSq 1 (0, 0) (1, 0) (1, 1) ≤ 16 then miterTri 1 (0, 0) (1, 0) (1, 1)
         else []) ∧
    (¬ miterDistSq 1 (0, 0) (1, 0) (1, 1) ≤ 16 →
      ∀ p ∈ pairUp (polylineJoin 1 16 (0, 0) (1, 0) (1, 1)),
        (p.1 - 1) ^ 2 + (p.2 - 0) ^ 2 ≤ (1 : ℝ) ^ 2) :=
  polylineJoin_bevel_structure 1 16 (0, 0) (1, 0) (1, 1) (by norm_num [turnZ])

end Wilhelm
